import Mathlib

/-!
Verification of the ccon container runtime (src/ccon.c) against its
natural-language specification.  The C source is shallowly embedded:
pure string/arithmetic logic is translated directly, syscall-backed
steps are modelled by explicit success/outcome parameters, and the
side effects the spec talks about (file writes, pipe messages, kill,
exec) are recorded as explicit event traces.
-/

namespace Ccon

/-- MAX_PATH from ccon.c: path buffers are 1024 bytes including NUL. -/
def MAX_PATH : Nat := 1024

/-- Handshake message, host to container (ccon.c line 43). -/
def USER_NAMESPACE_MAPPING_COMPLETE : String := "user-namespace-mapping-complete\n"

/-- Handshake message, container to host (ccon.c line 44). -/
def CONTAINER_SETUP_COMPLETE : String := "container-setup-complete\n"

/-- Handshake message, host to container (ccon.c line 45). -/
def EXEC_PROCESS : String := "exec-process\n"

/-- Embeds `strncmp(s, v, strlen(s)) == 0` for NUL-free C strings: every
byte of `s` matches the corresponding byte of `v`.  When `v` is shorter
than `s`, strncmp hits the terminating NUL of `v`, which differs from the
corresponding (non-NUL) byte of `s`, so the comparison fails - hence the
second case. -/
def leadsWith : List Char → List Char → Bool
  | [], _ => true
  | _ :: _, [] => false
  | a :: s, b :: v => a == b && leadsWith s v

/-- String wrapper for `leadsWith`. -/
def strLeadsWith (s v : String) : Bool := leadsWith s.data v.data

/-- C cast of a (possibly signed) integer value to a 32-bit unsigned
integer (`uid_t` / `unsigned int`): reduction modulo 2^32. -/
def toU32 (i : Int) : Nat := (i % (2 ^ 32 : Int)).toNat

/-- C cast of an integer value to a 32-bit signed `int`: two's-complement
wrap-around. -/
def toI32 (i : Int) : Int := (i + 2 ^ 31) % 2 ^ 32 - 2 ^ 31

/-- One entry of `namespaces.user.uidMappings` / `gidMappings`:
`{containerID, hostID, size}`, all JSON integers. -/
structure Mapping where
  containerID : Int
  hostID : Int
  size : Int
deriving DecidableEq, Repr

/-- One entry of `namespaces.mount.mounts`.  The JSON key `type` is
modelled as `mtype` (`type` is a Lean keyword); every field is optional,
matching the `json_object_get` calls in `handle_mounts`. -/
structure MountEntry where
  source : Option String
  target : Option String
  mtype : Option String
  flags : Option (List String)
  data : Option String
deriving DecidableEq, Repr

/-- The descriptor object attached to one key of the `namespaces`
object.  `path` is meaningful for every namespace; the mapping fields
are read only under the `user` key and `mounts` only under `mount`,
but JSON does not restrict which keys appear where. -/
structure NamespaceDesc where
  path : Option String
  uidMappings : Option (List Mapping)
  gidMappings : Option (List Mapping)
  setgroups : Option Bool
  mounts : Option (List MountEntry)
deriving DecidableEq, Repr

/-- The `process.user` object. -/
structure UserIdent where
  uid : Option Int
  gid : Option Int
  additionalGids : Option (List Int)
deriving DecidableEq, Repr

/-- A process descriptor: the `process` object of the config, and also
the element type of the hook arrays. -/
structure Process where
  args : Option (List String)
  env : Option (List String)
  path : Option String
  cwd : Option String
  host : Option Bool
  user : Option UserIdent
  capabilities : Option (List String)
deriving DecidableEq, Repr

/-- The `hooks` object: `pre-start` and `post-stop` arrays. -/
structure Hooks where
  preStart : Option (List Process)
  postStop : Option (List Process)
deriving DecidableEq, Repr

/-- A parsed config object.  The JSON `namespaces` member is an object,
modelled as an ordered association list (JSON_REJECT_DUPLICATES makes
keys unique). -/
structure Config where
  version : Option String
  namespaces : Option (List (String × NamespaceDesc))
  hooks : Option Hooks
  process : Option Process
deriving DecidableEq, Repr

/-- Embeds `json_object_get` on the `namespaces` object: first (only)
binding of the key. -/
def json_object_get (obj : List (String × NamespaceDesc)) (key : String) :
    Option NamespaceDesc :=
  (obj.find? (fun p => p.1 == key)).map (fun p => p.2)

/-- The `supported_versions` table of `validate_version` (ccon.c 272). -/
def supported_versions : List String := ["0.1.0", "0.2.0"]

/-- Embeds `validate_version` (ccon.c 269-289): returns 0 as soon as some
supported version is a byte-prefix of the config's version string
(`strncmp(supported, version, strlen(supported)) == 0`), else 1. -/
def validate_version (version : String) : Nat :=
  if supported_versions.any (fun s => strLeadsWith s version) then 0 else 1

/-- Embeds `validate_config` (ccon.c 246-267).  The `Config` type is an
object by construction, so the `json_is_object` guard cannot fire; a
missing `version` key returns 1, otherwise the version is validated.
(The code does no further validation; see the TODO at ccon.c 265.) -/
def validate_config (cfg : Config) : Nat :=
  match cfg.version with
  | none => 1
  | some v => validate_version v

/-- Embeds the error path of `main` (ccon.c 134-147): when
`validate_config` fails, main returns 1 without running the container;
otherwise the exit status is `run_container`'s result, abstracted here
as `run_result`. -/
def ccon_main (cfg : Config) (run_result : Nat) : Nat :=
  if validate_config cfg ≠ 0 then 1 else run_result

/-- Embeds the read loop of `getline_fd` (ccon.c 1681-1710) over the
stream of bytes still readable from the fd, carrying the byte count
`size`.  Each iteration reads one byte; `size` is incremented; if
`size >= 16384` the function returns -1 (modelled `none`) - this check
runs before the delimiter test; otherwise the loop ends successfully
when the byte just stored is the newline.  An empty stream models
`read` returning 0 (EOF) or failing, both of which return -1.  The
realloc growth of the buffer cannot fail in the model and does not
affect the return value. -/
def getline_fd_go : List Nat → Nat → Option Nat
  | [], _ => none
  | b :: rest, size =>
    if 16384 ≤ size + 1 then none
    else if b == 10 then some (size + 1)
    else getline_fd_go rest (size + 1)

/-- Embeds `getline_fd` called with a fresh buffer (`size` starts at 0). -/
def getline_fd (input : List Nat) : Option Nat := getline_fd_go input 0

/-- A write of `data` to the /proc file at `path`, as performed by
`dprintf`/`write` in the user-namespace mapping module. -/
structure FileWrite where
  path : String
  data : String
deriving DecidableEq, Repr

/-- The `snprintf(path, MAX_PATH, "/proc/%lu/%s", cpid, filename)`
result (the length check against MAX_PATH is done by the callers). -/
def proc_path (cpid : Nat) (filename : String) : String :=
  "/proc/" ++ toString cpid ++ "/" ++ filename

/-- One mapping line as formatted by
`dprintf(fd, "%u %u %d\n", container, host, size)` (ccon.c 1216-1218):
`containerID` and `hostID` pass through `(uid_t)`/`(unsigned int)`
casts, `size` through an `(int)` cast. -/
def map_line (m : Mapping) : String :=
  toString (toU32 m.containerID) ++ " " ++ toString (toU32 m.hostID) ++ " "
    ++ toString (toI32 m.size) ++ "\n"

/-- Embeds `set_user_map` (ccon.c 1150-1235): an absent mappings key
writes nothing and succeeds; otherwise the /proc path is formatted and
length-checked, the `child_pid < 0` sentinel is checked (`childAlive`),
the file is opened, and one formatted line per entry is written in
array order.  `open`/`dprintf` failures are modelled as not occurring;
a failure result is `none`. -/
def set_user_map (mappings : Option (List Mapping)) (cpid : Nat)
    (filename : String) (childAlive : Bool) : Option (List FileWrite) :=
  match mappings with
  | none => some []
  | some ms =>
    if MAX_PATH ≤ (proc_path cpid filename).length then none
    else if childAlive = false then none
    else some (ms.map (fun m => ⟨proc_path cpid filename, map_line m⟩))

/-- Embeds `set_user_setgroups` (ccon.c 1237-1293): absent key writes
nothing; otherwise "allow" or "deny" is written to
`/proc/<cpid>/setgroups` after the same path and liveness checks. -/
def set_user_setgroups (sg : Option Bool) (cpid : Nat) (childAlive : Bool) :
    Option (List FileWrite) :=
  match sg with
  | none => some []
  | some b =>
    if MAX_PATH ≤ (proc_path cpid "setgroups").length then none
    else if childAlive = false then none
    else some [⟨proc_path cpid "setgroups", if b then "allow" else "deny"⟩]

/-- Embeds `set_user_namespace_mappings` (ccon.c 1121-1148): nothing
happens without a `namespaces` object or without its `user` member;
otherwise uid_map is written, then setgroups, then gid_map, each step
aborting the sequence on failure. -/
def set_user_namespace_mappings (cfg : Config) (cpid : Nat) (childAlive : Bool) :
    Option (List FileWrite) :=
  match cfg.namespaces with
  | none => some []
  | some nss =>
    match json_object_get nss "user" with
    | none => some []
    | some user =>
      match set_user_map user.uidMappings cpid "uid_map" childAlive with
      | none => none
      | some w1 =>
        match set_user_setgroups user.setgroups cpid childAlive with
        | none => none
        | some w2 =>
          match set_user_map user.gidMappings cpid "gid_map" childAlive with
          | none => none
          | some w3 => some (w1 ++ w2 ++ w3)

/-- One call into the cap-ng API made by `set_capabilities`, plus the
warning log for an unknown name.  `add c` stands for
`capng_update(CAPNG_ADD, CAPNG_EFFECTIVE | CAPNG_PERMITTED |
CAPNG_INHERITABLE | CAPNG_BOUNDING_SET, c)`: one capability value added
to all four sets at once. -/
inductive CapOp where
  | clearBoth
  | warn (name : String)
  | add (cap : Nat)
  | applyBoth
deriving DecidableEq, Repr

/-- Embeds `_capng_name_to_capability` (ccon.c 738-744): names shorter
than 4 characters yield -1; otherwise the 4-character `CAP_` prefix is
stripped and the remainder is resolved by the cap-ng library table,
abstracted as `lookup` (non-negative for known names, negative for
unknown ones). -/
def capng_name_to_capability_wrap (lookup : String → Int) (name : String) : Int :=
  if name.length < 4 then -1 else lookup (name.drop 4)

/-- Embeds the per-name loop and the final apply of `set_capabilities`
(ccon.c 766-791).  For each name the wrapped lookup runs; a negative
result logs a warning (`warn`) but does not abort, and the numeric
value, cast to `unsigned int`, is added anyway; after the loop both
selectors are applied.  `capng_update`/`capng_apply` are cap-ng library
calls outside this repository; per the spec's interface view they are
modelled as succeeding, so the returned status is 0. -/
def set_capabilities_loop (lookup : String → Int) : List String → List CapOp × Nat
  | [] => ([CapOp.applyBoth], 0)
  | name :: rest =>
    let cap := capng_name_to_capability_wrap lookup name
    let warnOps := if cap < 0 then [CapOp.warn name] else []
    let r := set_capabilities_loop lookup rest
    (warnOps ++ CapOp.add (toU32 cap) :: r.1, r.2)

/-- Embeds `set_capabilities` (ccon.c 746-794): nothing happens when
`process` or `process.capabilities` is absent; otherwise the scratch
space for both selectors is cleared first (`capng_clear(CAPNG_SELECT_BOTH)`),
then the loop runs. -/
def set_capabilities (lookup : String → Int) (cfg : Config) : List CapOp × Nat :=
  match cfg.process with
  | none => ([], 0)
  | some p =>
    match p.capabilities with
    | none => ([], 0)
    | some caps =>
      let r := set_capabilities_loop lookup caps
      (CapOp.clearBoth :: r.1, r.2)

/-- Interprets a cap-ng call trace with scratch set `s`; the result is
the set committed by the last `applyBoth` (`none` when never applied).
This is the capability-interface semantics the spec describes (clear,
add, apply). -/
def cap_run : List CapOp → Finset Nat → Option (Finset Nat) → Option (Finset Nat)
  | [], _, applied => applied
  | CapOp.clearBoth :: ops, _, applied => cap_run ops ∅ applied
  | CapOp.warn _ :: ops, s, applied => cap_run ops s applied
  | CapOp.add c :: ops, s, applied => cap_run ops (insert c s) applied
  | CapOp.applyBoth :: ops, s, _ => cap_run ops s (some s)

/-- The outcome `waitid` reports for a reaped process, as consumed by
`_wait` (ccon.c 1581-1618). -/
inductive WaitOutcome where
  | exited (status : Nat)
  | killed (sig : Nat)
  | dumped (sig : Nat)
  | unknown (code : Int)
deriving DecidableEq, Repr

/-- Embeds the status computation of `_wait`: `err` starts at 1 and
only the CLD_EXITED case replaces it with the child's exit status;
killed/dumped/unrecognized outcomes leave it at 1. -/
def wait_result : WaitOutcome → Nat
  | WaitOutcome.exited status => status
  | _ => 1

/-- Embeds the hook loop of `run_hooks` (ccon.c 960-1027) over the hook
array zipped with each hook's `_wait` status.  With a non-zero
container PID (the `pre-start` call): a dead container
(`child_pid < 0`, modelled `childAlive = false`) aborts before the
fork, and a hook exiting non-zero aborts the loop with 1.  With
`cpid == 0` (the `post-stop` call) no PID pipe is set up and hook
failures are ignored, so the loop runs every hook and returns 0.
`pipe`/`fork` failures are modelled as not occurring. -/
def run_hooks_list : List (Process × Nat) → Bool → Bool → Nat
  | [], _, _ => 0
  | (_, st) :: rest, cpidNonzero, childAlive =>
    if cpidNonzero && !childAlive then 1
    else if cpidNonzero && st != 0 then 1
    else run_hooks_list rest cpidNonzero childAlive

/-- Embeds `json_object_get(hooks, name)` for the two hook phases. -/
def hook_array (cfg : Config) (name : String) : Option (List Process) :=
  match cfg.hooks with
  | none => none
  | some h =>
    if name == "pre-start" then h.preStart
    else if name == "post-stop" then h.postStop
    else none

/-- Embeds `run_hooks(config, name, cpid)`: an absent `hooks` object or
an absent array under `name` returns 0 immediately. -/
def run_hooks (cfg : Config) (name : String) (statuses : List Nat)
    (cpidNonzero childAlive : Bool) : Nat :=
  match hook_array cfg name with
  | none => 0
  | some arr => run_hooks_list (arr.zip statuses) cpidNonzero childAlive

/-- Host-side actions of `handle_parent` the spec talks about: pipe
messages, SIGKILL of the container, the container wait, and the two
hook phases together with the status `run_hooks` returned. -/
inductive PEvent where
  | writeLine (msg : String)
  | killContainer
  | waitContainer
  | hooksRun (name : String) (result : Nat)
deriving DecidableEq, Repr

/-- Embeds `handle_parent` (ccon.c 399-480) as an event trace plus the
returned status.  Syscall-backed inputs are explicit: `childAlive`
models the `child_pid` cell staying positive, `setupLine` is what
`getline_fd` delivers from the container (`none` = EOF, over-length or
read error, all of which make it return -1), `preStatuses` and
`postStatuses` are the `_wait` statuses of the hook processes, and
`containerWait` is what `waitid` reports for the container.  Pipe
writes and `close` calls are modelled as succeeding.  Note the
wrong-prefix branch: `goto cleanup` runs with `err` still 0, so the
function returns 0 there (ccon.c 426-432), unlike the `n == -1` branch
which sets `err = 1`.  In both hook branches the hook-failure status is
overwritten by `err = _wait(cpid, "container")` before returning. -/
def handle_parent (cfg : Config) (cpid : Nat) (childAlive : Bool)
    (setupLine : Option String) (preStatuses postStatuses : List Nat)
    (containerWait : WaitOutcome) : List PEvent × Nat :=
  match set_user_namespace_mappings cfg cpid childAlive with
  | none => ([], 1)
  | some _ =>
    let ev1 : List PEvent := [PEvent.writeLine USER_NAMESPACE_MAPPING_COMPLETE]
    match setupLine with
    | none => (ev1, 1)
    | some line =>
      if strLeadsWith CONTAINER_SETUP_COMPLETE line = false then
        (ev1, 0)
      else
        let hr := run_hooks cfg "pre-start" preStatuses (cpid != 0) childAlive
        let pr := run_hooks cfg "post-stop" postStatuses false childAlive
        if hr ≠ 0 then
          (ev1 ++ PEvent.hooksRun "pre-start" hr ::
            (if childAlive then [PEvent.killContainer] else []) ++
            [PEvent.waitContainer, PEvent.hooksRun "post-stop" pr],
           wait_result containerWait)
        else
          (ev1 ++ [PEvent.hooksRun "pre-start" hr, PEvent.writeLine EXEC_PROCESS,
            PEvent.waitContainer, PEvent.hooksRun "post-stop" pr],
           wait_result containerWait)

/-- Embeds `handle_child` (ccon.c 518-629) as the returned status.
`mappingLine` and `execLine` are what `getline_fd` delivers from the
host (`none` = EOF, over-length or read error); the Booleans model the
success, in program order, of the syscall-backed phases:
`get_host_exec_fd` returning 0 (covers both `process.host` absent and a
successful host open), `join_namespaces`, `handle_mounts`, `chdir`
(`set_working_directory`), `set_user_group`, and `capng_apply` inside
`set_capabilities`.  The final step is `exec_container_process`, which
either replaces the process image or calls `exit(0)`; when it returns,
`handle_child` returns 1.  As in the parent, each wrong-prefix line
runs `goto cleanup` with `err` still 0 (ccon.c 531-537 and 583-587). -/
def handle_child (_cfg : Config) (mappingLine : Option String)
    (hostExecOk joinOk mountsOk : Bool) (execLine : Option String)
    (cwdOk identOk capngOk : Bool) : Nat :=
  match mappingLine with
  | none => 1
  | some l1 =>
    if strLeadsWith USER_NAMESPACE_MAPPING_COMPLETE l1 = false then 0
    else if hostExecOk = false then 1
    else if joinOk = false then 1
    else if mountsOk = false then 1
    else
      match execLine with
      | none => 1
      | some l2 =>
        if strLeadsWith EXEC_PROCESS l2 = false then 0
        else if cwdOk = false then 1
        else if identOk = false then 1
        else if capngOk = false then 1
        else 1

/-- The observable outcome of `exec_container_process`/`exec_process`
(ccon.c 796-894): `exit(0)` without any exec attempt, or one of the
three exec calls, with the argv strings built from `args`. -/
inductive ExecOutcome where
  | exitZero
  | execveatFd (argv : List String)
  | execvpePath (path : String) (argv : List String)
  | execvpeArg0 (arg0 : Option String) (argv : List String)
deriving DecidableEq, Repr

/-- Embeds `exec_process` (ccon.c 810-894).  An absent `args` key means
`exit(0)` with no exec call.  Otherwise argv is built from the array
(an empty JSON array yields an argv whose argv[0] is already the NULL
terminator).  With a host `exec_fd`, `execveat` runs on the fd; else
with `process.path` set, `execvpe(path, argv, env)` runs; else
`execvpe(argv[0], argv, env)` runs, where `arg0` is `none` exactly when
`args` is empty (the C passes the NULL pointer argv[0]). -/
def exec_process (p : Process) (exec_fd : Option Nat) : ExecOutcome :=
  match p.args with
  | none => ExecOutcome.exitZero
  | some args =>
    match exec_fd with
    | some _ => ExecOutcome.execveatFd args
    | none =>
      match p.path with
      | some path => ExecOutcome.execvpePath path args
      | none => ExecOutcome.execvpeArg0 args.head? args

/-- Embeds `exec_container_process` (ccon.c 796-808): an absent
`process` object exits 0 without exec; otherwise `exec_process` runs. -/
def exec_container_process (cfg : Config) (exec_fd : Option Nat) : ExecOutcome :=
  match cfg.process with
  | none => ExecOutcome.exitZero
  | some p => exec_process p exec_fd

/-- Embeds `get_mount_flag` (ccon.c 1295-1362) with the Linux values of
the MS_* constants.  MS_LAZYTIME and MS_VERBOSE are defined by the
build's headers; MS_SYNC is not (its `#ifdef` is dead), so that token,
like any unknown one, is fatal (`none`).  The C compares with
`strncmp(tok, name, strlen(tok) + 1)`, which is full string equality. -/
def get_mount_flag (name : String) : Option Nat :=
  if name == "MS_BIND" then some 4096
  else if name == "MS_DIRSYNC" then some 128
  else if name == "MS_I_VERSION" then some 8388608
  else if name == "MS_LAZYTIME" then some 33554432
  else if name == "MS_MANDLOCK" then some 64
  else if name == "MS_MOVE" then some 8192
  else if name == "MS_NOATIME" then some 1024
  else if name == "MS_NODEV" then some 4
  else if name == "MS_NODIRATIME" then some 2048
  else if name == "MS_NOEXEC" then some 8
  else if name == "MS_NOSUID" then some 2
  else if name == "MS_PRIVATE" then some 262144
  else if name == "MS_RDONLY" then some 1
  else if name == "MS_REC" then some 16384
  else if name == "MS_RELATIME" then some 2097152
  else if name == "MS_REMOUNT" then some 32
  else if name == "MS_SHARED" then some 1048576
  else if name == "MS_SILENT" then some 32768
  else if name == "MS_SLAVE" then some 524288
  else if name == "MS_STRICTATIME" then some 16777216
  else if name == "MS_SYNCHRONOUS" then some 16
  else if name == "MS_UNBINDABLE" then some 131072
  else if name == "MS_VERBOSE" then some 32768
  else none

/-- The `flags` loop of `handle_mounts` (ccon.c 1461-1474): OR of the
named flags in order, fatal on the first unknown token. -/
def mount_flags : List String → Option Nat
  | [] => some 0
  | f :: rest =>
    match get_mount_flag f, mount_flags rest with
    | some v, some acc => some (v ||| acc)
    | _, _ => none

/-- Models the source-handling block for one mount entry (ccon.c
1399-1423).  Returns the string the `source` variable points to
afterwards, paired with whether that pointer was redirected into the
`full_source` buffer.  In the absolute branch the bytes are memcpy-ed
into `full_source` without a terminating NUL, but `source` itself is
left pointing at the original JSON string, so the buffer content is
never read (second component `false`).  In the relative branch
`source = full_source` after the snprintf join with the cwd. -/
def resolve_source (cwd src : String) : Option (String × Bool) :=
  if src.take 1 = "/" then
    if MAX_PATH ≤ src.length then none
    else some (src, false)
  else
    if MAX_PATH ≤ (cwd ++ "/" ++ src).length then none
    else some (cwd ++ "/" ++ src, true)

/-- The target block (ccon.c 1425-1448): an absolute target is only
length-checked (there is no copy at all), a relative one is joined into
`full_target` and `target` is redirected there. -/
def resolve_target (cwd tgt : String) : Option String :=
  if tgt.take 1 = "/" then
    if MAX_PATH ≤ tgt.length then none else some tgt
  else
    if MAX_PATH ≤ (cwd ++ "/" ++ tgt).length then none
    else some (cwd ++ "/" ++ tgt)

/-- The syscall dispatched for one mount entry: `pivot_root_remove_old`
when `type` starts with "pivot-root" (a strncmp prefix check),
otherwise `mount(source, target, type, flags, data)`. -/
inductive MountAction where
  | pivotRoot (source : Option String)
  | mountCall (source target mtype : Option String) (flags : Nat) (data : Option String)
deriving DecidableEq, Repr

/-- The string dispatched as the source argument of the entry's
syscall. -/
def mount_dispatch_source : MountAction → Option String
  | MountAction.pivotRoot s => s
  | MountAction.mountCall s _ _ _ _ => s

/-- The source step of one `handle_mounts` iteration: absent `source`
stays NULL. -/
def mount_entry_source (cwd : String) (mt : MountEntry) : Option (Option String × Bool) :=
  match mt.source with
  | none => some (none, false)
  | some s => (resolve_source cwd s).map (fun p => (some p.1, p.2))

/-- The target step of one `handle_mounts` iteration: absent `target`
stays NULL. -/
def mount_entry_target (cwd : String) (mt : MountEntry) : Option (Option String) :=
  match mt.target with
  | none => some none
  | some t => (resolve_target cwd t).map some

/-- The flags step of one `handle_mounts` iteration: absent `flags`
leaves 0. -/
def mount_entry_flags (mt : MountEntry) : Option Nat :=
  match mt.flags with
  | none => some 0
  | some fl => mount_flags fl

/-- The dispatch test of one `handle_mounts` iteration:
`type && strncmp("pivot-root", type, strlen("pivot-root")) == 0`. -/
def is_pivot (mt : MountEntry) : Bool :=
  match mt.mtype with
  | some ty => strLeadsWith "pivot-root" ty
  | none => false

/-- Embeds the body of one `handle_mounts` iteration (ccon.c
1397-1488): resolve `source` (tracking whether the dispatched source
string is the `full_source` buffer), resolve `target`, OR the flags,
then dispatch to `pivot_root_remove_old` or `mount`. -/
def handle_mount_entry (cwd : String) (mt : MountEntry) : Option (MountAction × Bool) :=
  (mount_entry_source cwd mt).bind (fun sb =>
    (mount_entry_target cwd mt).bind (fun tgt =>
      (mount_entry_flags mt).map (fun flags =>
        if is_pivot mt then (MountAction.pivotRoot sb.1, sb.2)
        else (MountAction.mountCall sb.1 tgt mt.mtype flags mt.data, sb.2))))

/-- A minimal config: version only. -/
def cfg_min : Config := ⟨some "0.2.0", none, none, none⟩

/-- The user-namespace descriptor of the C4 witness config: one uid
mapping, one gid mapping, setgroups=false. -/
def user_w : NamespaceDesc :=
  ⟨none, some [⟨0, 1000, 1⟩], some [⟨0, 2000, 1⟩], some false, none⟩

/-- C4 witness config: a new user namespace with mappings. -/
def cfg_c4w : Config := ⟨some "0.2.0", some [("user", user_w)], none, none⟩

/-- A concrete capability lookup standing for the cap-ng name table. -/
def lookup_w : String → Int :=
  fun n => if n == "KILL" then 5 else if n == "CHOWN" then 0 else -1

/-- C5 witness process: two known capability names. -/
def p_caps_w : Process :=
  ⟨none, none, none, none, none, none, some ["CAP_KILL", "CAP_CHOWN"]⟩

/-- C5 witness config. -/
def cfg_caps_w : Config := ⟨some "0.2.0", none, none, some p_caps_w⟩

/-- C6 witness process: one unknown capability name. -/
def p_caps_unknown_w : Process :=
  ⟨none, none, none, none, none, none, some ["CAP_BOGUS"]⟩

/-- C6 witness config. -/
def cfg_caps_unknown_w : Config := ⟨some "0.2.0", none, none, some p_caps_unknown_w⟩

/-- C2 witness hook descriptor. -/
def hook_w : Process := ⟨some ["/bin/false"], none, none, none, none, none, none⟩

/-- C2 witness config: one pre-start hook. -/
def cfg_hooks_w : Config := ⟨some "0.2.0", none, some ⟨some [hook_w], none⟩, none⟩

/-- C7 counterexample process: empty `args` array with a `path`. -/
def p_empty_args_path : Process :=
  ⟨some [], none, some "/bin/true", none, none, none, none⟩

/-- C7 counterexample config. -/
def cfg_empty_args : Config := ⟨some "0.2.0", none, none, some p_empty_args_path⟩

/-- C7 counterexample variant: empty `args` array and no `path`. -/
def p_empty_args_nopath : Process := ⟨some [], none, none, none, none, none, none⟩

/-- C7 counterexample variant config. -/
def cfg_empty_args_nopath : Config :=
  ⟨some "0.2.0", none, none, some p_empty_args_nopath⟩

/-- C10 witness mount entry: absolute source path. -/
def mt_abs_w : MountEntry :=
  ⟨some "/data/rootfs", some "/mnt", some "none", some ["MS_BIND"], none⟩

theorem getline_fd_go_line (pre : List Nat) (size : Nat) (h : 10 ∉ pre) :
    getline_fd_go (pre ++ [10]) size =
      if 16384 ≤ size + (pre.length + 1) then none
      else some (size + (pre.length + 1)) := by
  induction pre generalizing size with
  | nil => simp [getline_fd_go]
  | cons a rest ih =>
    have ha : (a == 10) = false := by
      have hne : a ≠ 10 := fun hEq => h (by simp [hEq])
      simpa using hne
    have hrest : 10 ∉ rest := fun hm => h (List.mem_cons_of_mem _ hm)
    have hunfold : getline_fd_go ((a :: rest) ++ [10]) size =
        if 16384 ≤ size + 1 then none
        else getline_fd_go (rest ++ [10]) (size + 1) := by
      simp [getline_fd_go, ha]
    rw [hunfold, List.length_cons]
    by_cases hs : 16384 ≤ size + 1
    · rw [if_pos hs, if_pos (by omega)]
    · rw [if_neg hs, ih (size + 1) hrest]
      by_cases h2 : 16384 ≤ size + 1 + (rest.length + 1)
      · rw [if_pos h2, if_pos (by omega)]
      · rw [if_neg h2, if_neg (by omega)]
        congr 1
        omega

/-- C3: a version string starting with "0.1.0" or "0.2.0" passes
validation (`validate_version` returns 0), and any version string
starting with neither prefix is rejected by `validate_version`, which
makes `main` exit non-zero (it returns 1 without running the
container). -/
theorem C3_version_acceptance (v : String) (r : Nat) :
    (validate_version v = 0 ↔
      (strLeadsWith "0.1.0" v = true ∨ strLeadsWith "0.2.0" v = true))
    ∧ (validate_version v ≠ 0 → ccon_main ⟨some v, none, none, none⟩ r = 1) := by
  cases h1 : strLeadsWith "0.1.0" v <;> cases h2 : strLeadsWith "0.2.0" v <;>
    simp [validate_version, supported_versions, ccon_main, validate_config, h1, h2]

/-- Witness for C3 at concrete inputs: "0.2.0-rc1" is accepted,
"0.3.0" is rejected and makes main return 1. -/
theorem C3_version_acceptance_witness :
    validate_version "0.2.0-rc1" = 0 ∧ ccon_main ⟨some "0.3.0", none, none, none⟩ 0 = 1 := by
  refine ⟨(C3_version_acceptance "0.2.0-rc1" 0).1.mpr (Or.inr (by decide)), ?_⟩
  exact (C3_version_acceptance "0.3.0" 0).2 (by decide)

/-- C8 counterexample: a line of exactly 16,384 bytes (16,383 content
bytes plus the newline) is NOT accepted by `getline_fd`: it returns -1
(modelled `none`), refuting the claim that 16,384 bytes is the largest
accepted length.  The `size >= max` check runs before the delimiter
test, so the 16,384th byte triggers the error return even though it is
the newline. -/
theorem C8_line_limit_counterexample :
    (List.replicate 16383 97 ++ [10]).length = 16384 ∧
      getline_fd (List.replicate 16383 97 ++ [10]) = none := by
  constructor
  · rw [List.length_append, List.length_replicate, List.length_singleton]
  · have h97 : (10 : Nat) ∉ List.replicate 16383 97 := by
      intro hmem
      have h2 := List.eq_of_mem_replicate hmem
      norm_num at h2
    rw [getline_fd, getline_fd_go_line _ 0 h97, List.length_replicate]
    norm_num

/-- C8 amended: for any line (a newline-free body followed by the
newline byte), `getline_fd` accepts it and returns its length exactly
when that length is at most 16,383 bytes; from 16,384 bytes (newline
included) on, it returns -1 (`none`).  So the largest accepted line is
16,383 bytes, one byte less than the claim states. -/
theorem C8_line_limit_amended (pre : List Nat) (h : 10 ∉ pre) :
    getline_fd (pre ++ [10]) =
      if 16384 ≤ pre.length + 1 then none else some (pre.length + 1) := by
  rw [getline_fd, getline_fd_go_line _ 0 h]
  simp

/-- Witness for the amended C8 at a concrete input: the three-byte line
[97, 98, 10] is accepted with length 3. -/
theorem C8_line_limit_amended_witness :
    (10 : Nat) ∉ [97, 98] ∧ getline_fd [97, 98, 10] = some 3 := by
  refine ⟨by decide, ?_⟩
  have := C8_line_limit_amended [97, 98] (by decide)
  simpa using this

/-- C4: for a valid config requesting a user namespace, the host-side
mapping writes happen in the order uid_map, then setgroups, then
gid_map, and each of uid_map and gid_map receives exactly one
`"%u %u %d\n"`-formatted line (container ID, host ID, size) per mapping
entry, in config order. -/
theorem C4_user_namespace_mapping_order (cfg : Config) (cpid : Nat)
    (nss : List (String × NamespaceDesc)) (user : NamespaceDesc)
    (uidMs gidMs : List Mapping) (sgWrites : List FileWrite)
    (hns : cfg.namespaces = some nss)
    (hu : json_object_get nss "user" = some user)
    (h1 : user.uidMappings = some uidMs)
    (h2 : user.gidMappings = some gidMs)
    (hp1 : (proc_path cpid "uid_map").length < MAX_PATH)
    (hp2 : (proc_path cpid "gid_map").length < MAX_PATH)
    (hsg : set_user_setgroups user.setgroups cpid true = some sgWrites) :
    set_user_namespace_mappings cfg cpid true =
      some ((uidMs.map fun m => ⟨proc_path cpid "uid_map", map_line m⟩)
        ++ sgWrites
        ++ (gidMs.map fun m => ⟨proc_path cpid "gid_map", map_line m⟩)) := by
  simp only [set_user_namespace_mappings, hns, hu, set_user_map, h1, h2, hsg,
    if_neg (Nat.not_le.mpr hp1), if_neg (Nat.not_le.mpr hp2)]
  simp

/-- Witness for C4 at a concrete config and cpid = 5. -/
theorem C4_user_namespace_mapping_order_witness :
    set_user_namespace_mappings cfg_c4w 5 true =
      some [⟨"/proc/5/uid_map", "0 1000 1\n"⟩, ⟨"/proc/5/setgroups", "deny"⟩,
            ⟨"/proc/5/gid_map", "0 2000 1\n"⟩] := by
  have h := C4_user_namespace_mapping_order cfg_c4w 5 [("user", user_w)] user_w
    [⟨0, 1000, 1⟩] [⟨0, 2000, 1⟩] [⟨"/proc/5/setgroups", "deny"⟩]
    rfl (by decide) rfl rfl (by decide) (by decide) (by decide)
  rw [h]
  decide

theorem set_capabilities_loop_ret (lookup : String → Int) (caps : List String) :
    (set_capabilities_loop lookup caps).2 = 0 := by
  induction caps with
  | nil => rfl
  | cons a rest ih => simp [set_capabilities_loop, ih]

theorem set_capabilities_loop_trace (lookup : String → Int) (caps : List String)
    (hk : ∀ name ∈ caps, 0 ≤ capng_name_to_capability_wrap lookup name) :
    (set_capabilities_loop lookup caps).1 =
      caps.map (fun n => CapOp.add (toU32 (capng_name_to_capability_wrap lookup n)))
        ++ [CapOp.applyBoth] := by
  induction caps with
  | nil => rfl
  | cons a rest ih =>
    have ha : ¬ capng_name_to_capability_wrap lookup a < 0 := by
      have := hk a (List.mem_cons_self a rest)
      omega
    have hrest := ih (fun n hn => hk n (List.mem_cons_of_mem _ hn))
    simp [set_capabilities_loop, ha, hrest]

theorem cap_run_adds (f : String → Nat) (caps : List String) (s : Finset Nat) :
    cap_run (caps.map (fun n => CapOp.add (f n)) ++ [CapOp.applyBoth]) s none =
      some (s ∪ (caps.map f).toFinset) := by
  induction caps generalizing s with
  | nil => simp [cap_run]
  | cons a rest ih =>
    have hstep : cap_run ((a :: rest).map (fun n => CapOp.add (f n)) ++ [CapOp.applyBoth]) s none =
        cap_run (rest.map (fun n => CapOp.add (f n)) ++ [CapOp.applyBoth]) (insert (f a) s) none := rfl
    rw [hstep, ih]
    congr 1
    ext x
    simp only [Finset.mem_union, Finset.mem_insert, List.map_cons, List.toFinset_cons,
      List.mem_toFinset]
    tauto

/-- C5: with `process.capabilities` present and every name known to the
lookup, `set_capabilities` emits exactly: clear both selectors, then
one add (to effective, permitted, inheritable and bounding) per named
capability in order, then apply both selectors; interpreting that trace
from any initial scratch set commits exactly the named capabilities,
and the function returns 0. -/
theorem C5_capabilities_exact_set (lookup : String → Int) (cfg : Config)
    (p : Process) (caps : List String) (init : Finset Nat)
    (hp : cfg.process = some p) (hc : p.capabilities = some caps)
    (hk : ∀ name ∈ caps, 0 ≤ capng_name_to_capability_wrap lookup name) :
    (set_capabilities lookup cfg).1 =
      CapOp.clearBoth ::
        (caps.map (fun n => CapOp.add (toU32 (capng_name_to_capability_wrap lookup n)))
          ++ [CapOp.applyBoth])
    ∧ cap_run (set_capabilities lookup cfg).1 init none =
        some ((caps.map (fun n => toU32 (capng_name_to_capability_wrap lookup n))).toFinset)
    ∧ (set_capabilities lookup cfg).2 = 0 := by
  have hcfg : set_capabilities lookup cfg =
      (CapOp.clearBoth :: (set_capabilities_loop lookup caps).1,
       (set_capabilities_loop lookup caps).2) := by
    simp [set_capabilities, hp, hc]
  have htrace := set_capabilities_loop_trace lookup caps hk
  refine ⟨by rw [hcfg]; simp [htrace], ?_, by rw [hcfg]; simp [set_capabilities_loop_ret]⟩
  rw [hcfg]
  have hstep : cap_run (CapOp.clearBoth :: (set_capabilities_loop lookup caps).1,
      (set_capabilities_loop lookup caps).2).1 init none =
      cap_run ((set_capabilities_loop lookup caps).1) ∅ none := rfl
  rw [hstep, htrace, cap_run_adds]
  rw [Finset.empty_union]

/-- Witness for C5 at a concrete config with CAP_KILL and CAP_CHOWN. -/
theorem C5_capabilities_exact_set_witness :
    cap_run (set_capabilities lookup_w cfg_caps_w).1 {3} none = some ({5, 0} : Finset Nat)
    ∧ (set_capabilities lookup_w cfg_caps_w).2 = 0 := by
  have h := C5_capabilities_exact_set lookup_w cfg_caps_w p_caps_w
    ["CAP_KILL", "CAP_CHOWN"] {3} rfl rfl (by decide)
  refine ⟨?_, h.2.2⟩
  rw [h.2.1]
  decide

theorem set_capabilities_loop_warn (lookup : String → Int) (caps : List String)
    (name : String) (hn : name ∈ caps)
    (hu : capng_name_to_capability_wrap lookup name < 0) :
    CapOp.warn name ∈ (set_capabilities_loop lookup caps).1 := by
  induction caps with
  | nil => cases hn
  | cons a rest ih =>
    rcases List.mem_cons.mp hn with h1 | h2
    · subst h1
      simp [set_capabilities_loop, hu]
    · by_cases hc : capng_name_to_capability_wrap lookup a < 0 <;>
        simp [set_capabilities_loop, hc, ih h2]

/-- C6: a capability name unknown to the lookup produces a warning
entry in the trace but is not fatal: `set_capabilities` continues past
the failed lookup and returns 0 (success) for that list. -/
theorem C6_unknown_capability_nonfatal (lookup : String → Int) (cfg : Config)
    (p : Process) (caps : List String) (name : String)
    (hp : cfg.process = some p) (hc : p.capabilities = some caps)
    (hn : name ∈ caps) (hu : capng_name_to_capability_wrap lookup name < 0) :
    CapOp.warn name ∈ (set_capabilities lookup cfg).1
    ∧ (set_capabilities lookup cfg).2 = 0 := by
  constructor
  · simp only [set_capabilities, hp, hc, List.mem_cons]
    exact Or.inr (set_capabilities_loop_warn lookup caps name hn hu)
  · simp [set_capabilities, hp, hc, set_capabilities_loop_ret]

/-- Witness for C6 at a concrete config with CAP_BOGUS. -/
theorem C6_unknown_capability_nonfatal_witness :
    CapOp.warn "CAP_BOGUS" ∈ (set_capabilities lookup_w cfg_caps_unknown_w).1
    ∧ (set_capabilities lookup_w cfg_caps_unknown_w).2 = 0 :=
  C6_unknown_capability_nonfatal lookup_w cfg_caps_unknown_w p_caps_unknown_w
    ["CAP_BOGUS"] "CAP_BOGUS" rfl rfl (by decide) (by decide)

theorem run_hooks_list_fail (l : List (Process × Nat))
    (hf : ∃ pr ∈ l, pr.2 ≠ 0) : run_hooks_list l true true = 1 := by
  induction l with
  | nil => simp at hf
  | cons a rest ih =>
    by_cases ha : a.2 = 0
    · have hrest : ∃ pr ∈ rest, pr.2 ≠ 0 := by
        rcases hf with ⟨pr, hmem, hpr⟩
        rcases List.mem_cons.mp hmem with h1 | h2
        · exact absurd (h1 ▸ ha) hpr
        · exact ⟨pr, h2, hpr⟩
      simp [run_hooks_list, ha, ih hrest]
    · simp [run_hooks_list, ha]

/-- C2: when the container-setup handshake has succeeded and some
pre-start hook exits non-zero (with the container still alive), the
host SIGKILLs the container, never writes the "exec-process\n" line,
and `handle_parent` returns non-zero.  The container, blocked on the
exec-process read, is reaped as CLD_KILLED after the SIGKILL, which is
the `containerWait = killed 9` input; `_wait` turns that into 1, and
the hook-failure branch overwrites its own `err = 1` with exactly that
wait status before returning. -/
theorem C2_prestart_hook_failure (cfg : Config) (cpid : Nat)
    (preSts postSts : List Nat) (hl : List Process) (ws : List FileWrite)
    (line : String)
    (hmap : set_user_namespace_mappings cfg cpid true = some ws)
    (hline : strLeadsWith CONTAINER_SETUP_COMPLETE line = true)
    (hcpid : (cpid != 0) = true)
    (hhl : hook_array cfg "pre-start" = some hl)
    (hfail : ∃ pr ∈ hl.zip preSts, pr.2 ≠ 0) :
    PEvent.killContainer ∈
      (handle_parent cfg cpid true (some line) preSts postSts (WaitOutcome.killed 9)).1
    ∧ PEvent.writeLine EXEC_PROCESS ∉
      (handle_parent cfg cpid true (some line) preSts postSts (WaitOutcome.killed 9)).1
    ∧ (handle_parent cfg cpid true (some line) preSts postSts (WaitOutcome.killed 9)).2 ≠ 0 := by
  have hr : run_hooks cfg "pre-start" preSts (cpid != 0) true = 1 := by
    rw [hcpid, run_hooks, hhl]
    exact run_hooks_list_fail _ hfail
  have hres : handle_parent cfg cpid true (some line) preSts postSts (WaitOutcome.killed 9) =
      ([PEvent.writeLine USER_NAMESPACE_MAPPING_COMPLETE] ++
        PEvent.hooksRun "pre-start" 1 ::
          [PEvent.killContainer] ++
          [PEvent.waitContainer,
           PEvent.hooksRun "post-stop"
             (run_hooks cfg "post-stop" postSts false true)],
       wait_result (WaitOutcome.killed 9)) := by
    simp [handle_parent, hmap, hline, hr]
  rw [hres]
  refine ⟨by simp, ?_, by simp [wait_result]⟩
  simp only [List.cons_append, List.nil_append, List.mem_cons, List.not_mem_nil,
    or_false, not_or]
  refine ⟨by decide, by simp, by simp, by simp, by simp⟩

/-- Witness for C2 at a concrete config with one failing pre-start
hook. -/
theorem C2_prestart_hook_failure_witness :
    PEvent.killContainer ∈
      (handle_parent cfg_hooks_w 7 true (some CONTAINER_SETUP_COMPLETE) [3] []
        (WaitOutcome.killed 9)).1
    ∧ PEvent.writeLine EXEC_PROCESS ∉
      (handle_parent cfg_hooks_w 7 true (some CONTAINER_SETUP_COMPLETE) [3] []
        (WaitOutcome.killed 9)).1
    ∧ (handle_parent cfg_hooks_w 7 true (some CONTAINER_SETUP_COMPLETE) [3] []
        (WaitOutcome.killed 9)).2 ≠ 0 :=
  C2_prestart_hook_failure cfg_hooks_w 7 [3] [] [hook_w] [] CONTAINER_SETUP_COMPLETE
    rfl (by decide) (by decide) (by decide) ⟨(hook_w, 3), by decide, by decide⟩

/-- C9: once the setup handshake line has been read successfully,
`handle_parent` returns exactly the container's wait status, whatever
the post-stop hook statuses are: the `run_hooks(config, "post-stop", 0)`
result is discarded (`(void)` cast at ccon.c 473), so a failing
post-stop hook does not alter the reported exit code. -/
theorem C9_poststop_discarded (cfg : Config) (cpid : Nat) (childAlive : Bool)
    (line : String) (preSts postSts : List Nat) (cw : WaitOutcome)
    (ws : List FileWrite)
    (hmap : set_user_namespace_mappings cfg cpid childAlive = some ws)
    (hline : strLeadsWith CONTAINER_SETUP_COMPLETE line = true) :
    (handle_parent cfg cpid childAlive (some line) preSts postSts cw).2 = wait_result cw := by
  by_cases hr : run_hooks cfg "pre-start" preSts (cpid != 0) childAlive ≠ 0 <;>
    simp [handle_parent, hmap, hline, hr]

/-- Witness for C9 at a concrete run whose only post-stop hook fails
with status 5 while the container exited 42. -/
theorem C9_poststop_discarded_witness :
    (handle_parent cfg_min 7 true (some CONTAINER_SETUP_COMPLETE) [] [5]
      (WaitOutcome.exited 42)).2 = 42 := by
  have h := C9_poststop_discarded cfg_min 7 true CONTAINER_SETUP_COMPLETE [] [5]
    (WaitOutcome.exited 42) [] rfl (by decide)
  simpa [wait_result] using h

/-- C1 (evaluation at the failing inputs): a wrong-prefix handshake
line is NOT fatal to the receiver's return value, contradicting the
claim.  `handle_parent` returns 0 when the container sends "oops\n"
instead of "container-setup-complete\n", and `handle_child` returns 0
when the host's line is neither "user-namespace-mapping-complete\n"
(first read) nor "exec-process\n" (second read): the wrong-prefix
branches jump to cleanup with `err` still 0.  The EOF / over-length
branches (getline_fd returning -1, modelled `none`) do return 1 as the
claim states. -/
theorem C1_handshake_deviation_returns :
    (handle_parent cfg_min 7 true (some "oops\n") [] [] (WaitOutcome.exited 0)).2 = 0
    ∧ (handle_parent cfg_min 7 true none [] [] (WaitOutcome.exited 0)).2 = 1
    ∧ handle_child cfg_min (some "oops\n") true true true none true true true = 0
    ∧ handle_child cfg_min (some USER_NAMESPACE_MAPPING_COMPLETE) true true true
        (some "oops\n") true true true = 0
    ∧ handle_child cfg_min none true true true none true true true = 1 := by
  decide

/-- C7 counterexample: a present `process` whose `args` is the empty
array does NOT exit 0 without exec.  `json_object_get(process, "args")`
returns the (non-NULL) empty array, so the `exit(0)` branch is skipped
and an exec call is still dispatched: with `path` set, `execvpe(path,
argv, env)` runs with an argv that is just the NULL terminator; without
`path`, `execvpe` is invoked on the NULL pointer argv[0]. -/
theorem C7_empty_args_counterexample :
    exec_container_process cfg_empty_args none =
      ExecOutcome.execvpePath "/bin/true" []
    ∧ exec_container_process cfg_empty_args none ≠ ExecOutcome.exitZero
    ∧ exec_container_process cfg_empty_args_nopath none =
      ExecOutcome.execvpeArg0 none [] := by
  decide

/-- C7 amended: if `process` is absent, or `process` is present without
an `args` key, the container process exits 0 without invoking any exec
call; an empty `args` array is not special-cased and still reaches an
exec call. -/
theorem C7_exit_zero_when_no_args (cfg : Config) (fd : Option Nat)
    (h : cfg.process = none ∨ ∃ p, cfg.process = some p ∧ p.args = none) :
    exec_container_process cfg fd = ExecOutcome.exitZero := by
  rcases h with h | ⟨p, hp, ha⟩
  · simp [exec_container_process, h]
  · simp [exec_container_process, hp, exec_process, ha]

/-- Witness for the amended C7: the minimal config has no `process`. -/
theorem C7_exit_zero_when_no_args_witness :
    exec_container_process cfg_min none = ExecOutcome.exitZero :=
  C7_exit_zero_when_no_args cfg_min none (Or.inl rfl)

/-- C10: for a mount entry whose source is an absolute path (first
byte '/') short enough for the length check, the source-handling block
leaves `source` pointing at the original NUL-terminated JSON string -
independent of the cwd, and not redirected into the `full_source`
buffer the memcpy filled (flag `false`) - and whatever action the entry
dispatches (`mount` or `pivot_root_remove_old`) receives exactly that
original string as its source argument. -/
theorem C10_absolute_source_verbatim (cwd cwd2 : String) (mt : MountEntry) (s : String)
    (hs : mt.source = some s) (habs : s.take 1 = "/") (hlen : s.length < MAX_PATH) :
    resolve_source cwd s = some (s, false)
    ∧ resolve_source cwd s = resolve_source cwd2 s
    ∧ (∀ act fromBuf, handle_mount_entry cwd mt = some (act, fromBuf) →
        mount_dispatch_source act = some s ∧ fromBuf = false) := by
  have hres : ∀ c : String, resolve_source c s = some (s, false) := by
    intro c
    rw [resolve_source, if_pos habs, if_neg (Nat.not_le.mpr hlen)]
  refine ⟨hres cwd, by rw [hres cwd, hres cwd2], ?_⟩
  intro act fromBuf hact
  have hsrc : mount_entry_source cwd mt = some (some s, false) := by
    simp [mount_entry_source, hs, hres cwd]
  rcases htgt : mount_entry_target cwd mt with _ | tgt
  · simp [handle_mount_entry, hsrc, htgt] at hact
  rcases hfl : mount_entry_flags mt with _ | flags
  · simp [handle_mount_entry, hsrc, htgt, hfl] at hact
  by_cases hpiv : is_pivot mt = true
  · simp [handle_mount_entry, hsrc, htgt, hfl, hpiv] at hact
    rcases hact with ⟨rfl, rfl⟩
    exact ⟨rfl, rfl⟩
  · simp [handle_mount_entry, hsrc, htgt, hfl, hpiv] at hact
    rcases hact with ⟨rfl, rfl⟩
    exact ⟨rfl, rfl⟩

/-- Witness for C10 at a concrete entry with an absolute source. -/
theorem C10_absolute_source_verbatim_witness :
    resolve_source "/cwd" "/data/rootfs" = some ("/data/rootfs", false)
    ∧ mount_dispatch_source
        (MountAction.mountCall (some "/data/rootfs") (some "/mnt") (some "none") 4096 none) =
      some "/data/rootfs" := by
  have h := C10_absolute_source_verbatim "/cwd" "/elsewhere" mt_abs_w "/data/rootfs"
    rfl (by decide) (by decide)
  exact ⟨h.1, (h.2.2 _ false (by decide)).1⟩

end Ccon
